import Mathlib

/-!
Shallow embedding of `gve_devnet_webex_calling_partner_report`
(`src/webex.py`, `src/report.py`).

HTTP traffic is modelled by passing the responses the network would
deliver as explicit arguments (oracles): a pure function of the
responses mirrors each collector's state updates on the
`WebexCallingInfo` object and each report projection in `populate_df`.
-/

namespace WebexReport

/-! ## HTTP layer: `WebexCallingInfo.get_wrapper` (webex.py lines 54-90) -/

/-- An HTTP response as seen by `requests`: status code and (abstract) JSON body.
`response.ok` in `requests` means `status_code < 400`. -/
structure HttpResponse where
  status : Nat
  body : String
deriving DecidableEq, Repr

/-- Which endpoint a GET issued by `get_wrapper` targets: the original request
URL, or the org-details endpoint `organizations/{id}` used to refresh scope. -/
inductive ReqKind where
  | original
  | orgDetails
deriving DecidableEq, Repr

/-- Result of a `get_wrapper` call: the returned JSON body (`none` models
Python `None`), the object's `error_flag` after the call, and the list of GET
requests issued, in order. -/
structure WrapperResult where
  result : Option String
  errorFlag : Bool
  requests : List ReqKind
deriving DecidableEq, Repr

/-- `requests.Response.ok`: true iff the status code is below 400. -/
def response_ok (r : HttpResponse) : Bool :=
  r.status < 400

/-- `WebexCallingInfo.get_wrapper` (webex.py lines 54-90).
`errFlag` is the object's `error_flag` before the call; `first` is the
response to the initial GET; `_recovery` is the response to the
org-details scope-refresh GET (read off the wire but discarded by the
code); `retry` is the response to the single retry of the original
request.  On a non-ok, non-403 first response no further request is
made; on 403 the org-details call and exactly one retry are made. -/
def get_wrapper (errFlag : Bool) (first : HttpResponse) (_recovery : HttpResponse)
    (retry : HttpResponse) : WrapperResult :=
  if response_ok first then
    ⟨some first.body, errFlag, [ReqKind.original]⟩
  else if first.status = 403 then
    if response_ok retry then
      ⟨some retry.body, errFlag, [ReqKind.original, ReqKind.orgDetails, ReqKind.original]⟩
    else
      ⟨none, true, [ReqKind.original, ReqKind.orgDetails, ReqKind.original]⟩
  else
    ⟨none, true, [ReqKind.original]⟩

/-! ## Org id decoding: `WebexCallingInfo.get_org_id` (webex.py lines 103-112)

`base64.b64decode(self.id + '==')` with the default `validate=False`:
non-alphabet characters are discarded, decoding stops at the first `=`
padding character, and excess padding is tolerated.  The decoded bytes
are then interpreted as UTF-8, split on `/`, and the final segment is
kept. -/

/-- Value of a character in the standard base64 alphabet, `none` for
characters outside the alphabet (discarded by `validate=False`). -/
def b64CharVal (c : Char) : Option Nat :=
  if 'A' ≤ c ∧ c ≤ 'Z' then some (c.toNat - 65)
  else if 'a' ≤ c ∧ c ≤ 'z' then some (c.toNat - 97 + 26)
  else if '0' ≤ c ∧ c ≤ '9' then some (c.toNat - 48 + 52)
  else if c = '+' then some 62
  else if c = '/' then some 63
  else none

/-- Pack a stream of 6-bit values into 8-bit bytes, dropping the final
partial byte (the padding bits), exactly as base64 decoding does. -/
def sixBitsToBytes : List Nat → List Nat
  | a :: b :: c :: d :: rest =>
      (a * 4 + b / 16) :: ((b % 16) * 16 + c / 4) :: ((c % 4) * 64 + d) :: sixBitsToBytes rest
  | [a, b] => [a * 4 + b / 16]
  | [a, b, c] => [a * 4 + b / 16, (b % 16) * 16 + c / 4]
  | _ => []

/-- `bytes.decode('utf-8')`: decode a byte list as UTF-8 text; `none`
models a raised `UnicodeDecodeError`. -/
def utf8Decode : List Nat → Option (List Char)
  | [] => some []
  | b :: rest =>
      if b < 0x80 then
        (utf8Decode rest).map (fun cs => Char.ofNat b :: cs)
      else if 0xc0 ≤ b ∧ b < 0xe0 then
        match rest with
        | b2 :: rest2 =>
            if 0x80 ≤ b2 ∧ b2 < 0xc0 then
              let cp := (b - 0xc0) * 64 + (b2 - 0x80)
              if 0x80 ≤ cp then (utf8Decode rest2).map (fun cs => Char.ofNat cp :: cs)
              else none
            else none
        | [] => none
      else if 0xe0 ≤ b ∧ b < 0xf0 then
        match rest with
        | b2 :: b3 :: rest2 =>
            if (0x80 ≤ b2 ∧ b2 < 0xc0) ∧ (0x80 ≤ b3 ∧ b3 < 0xc0) then
              let cp := (b - 0xe0) * 4096 + (b2 - 0x80) * 64 + (b3 - 0x80)
              if 0x800 ≤ cp ∧ (cp < 0xd800 ∨ 0xe000 ≤ cp) then
                (utf8Decode rest2).map (fun cs => Char.ofNat cp :: cs)
              else none
            else none
        | _ => none
      else if 0xf0 ≤ b ∧ b < 0xf8 then
        match rest with
        | b2 :: b3 :: b4 :: rest2 =>
            if (0x80 ≤ b2 ∧ b2 < 0xc0) ∧ (0x80 ≤ b3 ∧ b3 < 0xc0) ∧ (0x80 ≤ b4 ∧ b4 < 0xc0) then
              let cp := (b - 0xf0) * 262144 + (b2 - 0x80) * 4096 + (b3 - 0x80) * 64 + (b4 - 0x80)
              if 0x10000 ≤ cp ∧ cp < 0x110000 then
                (utf8Decode rest2).map (fun cs => Char.ofNat cp :: cs)
              else none
            else none
        | _ => none
      else none

/-- `base64.b64decode(s)` with `validate=False`: keep alphabet characters
up to the first `=`, reject a leftover of exactly one 6-bit group
(`binascii.Error`), otherwise pack into bytes. -/
def b64decodeBytes (s : String) : Option (List Nat) :=
  let vals := (s.data.takeWhile (fun c => c ≠ '=')).filterMap b64CharVal
  if vals.length % 4 = 1 then none else some (sixBitsToBytes vals)

/-- Python `text.split('/')` for the single-character separator `/`:
splits at every occurrence, keeping empty segments. -/
def splitOnSlash : List Char → List (List Char)
  | [] => [[]]
  | c :: rest =>
      if c = '/' then [] :: splitOnSlash rest
      else
        match splitOnSlash rest with
        | [] => [[c]]
        | h :: t => (c :: h) :: t

/-- `WebexCallingInfo.get_org_id` (webex.py lines 103-112): append `==`,
base64-decode, UTF-8-decode, split on `/`, take the final segment.
`none` models a propagated decode exception. -/
def get_org_id (id : String) : Option String :=
  match b64decodeBytes (id ++ "==") with
  | none => none
  | some bytes =>
      match utf8Decode bytes with
      | none => none
      | some cs => some (String.mk ((splitOnSlash cs).getLastD []))

/-! ## Trunks: `WebexCallingInfo.get_trunks` (webex.py lines 114-157) -/

/-- A trunk entry of the `telephony/config/premisePstn/trunks` response
(only the fields the code reads). -/
structure TrunkJson where
  name : String
  id : String
deriving DecidableEq, Repr

/-- A stored trunk record `{name, id, rg_names}`. -/
structure TrunkInfo where
  name : String
  id : String
  rg_names : List String
deriving DecidableEq, Repr

/-- Loop body of `get_trunks` for one trunk: fetch its route groups
(`rgOf` maps the trunk id to the route-group names of the
`usageRouteGroup` response, `none` modelling a failed `get_wrapper`);
a failed fetch or an empty route-group list yields no record. -/
def processTrunk (rgOf : String → Option (List String)) (t : TrunkJson) : Option TrunkInfo :=
  match rgOf t.id with
  | none => none
  | some rgs => if rgs.length = 0 then none else some ⟨t.name, t.id, rgs⟩

/-- `WebexCallingInfo.get_trunks`: `resp` is the trunk-list response
(`none` modelling a failed `get_wrapper`, which leaves `self.trunks`
empty); each trunk is kept only if `processTrunk` produces a record. -/
def get_trunks (resp : Option (List TrunkJson)) (rgOf : String → Option (List String)) :
    List TrunkInfo :=
  match resp with
  | none => []
  | some trunks => trunks.filterMap (processTrunk rgOf)

/-! ## Licenses: `WebexCallingInfo.get_license_counts` (webex.py lines 159-204) -/

/-- The `provisioned`/`booked` pair of a license-category dictionary
(`self.professional_licenses` / `self.workspace_licenses`); the Python
dict is either empty or holds both keys, modelled as `Option LicCounts`. -/
structure LicCounts where
  provisioned : Int
  booked : Int
deriving DecidableEq, Repr

/-- A license item of the `licenses` response (the fields the code reads);
`subscriptionId := none` models an absent key. -/
structure LicenseItem where
  name : String
  consumedUnits : Int
  totalUnits : Int
  subscriptionId : Option String
deriving DecidableEq, Repr

/-- The state touched by `get_license_counts`. -/
structure LicState where
  professional_licenses : Option LicCounts
  workspace_licenses : Option LicCounts
  sub_ids : List String
deriving DecidableEq, Repr

/-- The `__init__` values of the license-related fields. -/
def initLicState : LicState :=
  ⟨none, none, []⟩

/-- Add a license's `consumedUnits`/`totalUnits` to a category dict:
sum if the keys are already present, set otherwise. -/
def addCounts : Option LicCounts → Int → Int → Option LicCounts
  | some c, p, b => some ⟨c.provisioned + p, c.booked + b⟩
  | none, p, b => some ⟨p, b⟩

/-- Append a license's `subscriptionId` to `sub_ids` when the key is
present, non-empty and not already recorded. -/
def addSubId (ids : List String) (sid : Option String) : List String :=
  match sid with
  | some s => if s ≠ "" ∧ s ∉ ids then ids ++ [s] else ids
  | none => ids

/-- Loop body of `get_license_counts` for one license item: the
workspace branch and the professional branch are two independent
name checks. -/
def licenseStep (st : LicState) (l : LicenseItem) : LicState :=
  let st1 :=
    if l.name = "Webex Calling - Workspaces" then
      { st with workspace_licenses := addCounts st.workspace_licenses l.consumedUnits l.totalUnits,
                sub_ids := addSubId st.sub_ids l.subscriptionId }
    else st
  if l.name = "Webex Calling - Professional" then
    { st1 with professional_licenses := addCounts st1.professional_licenses l.consumedUnits l.totalUnits,
               sub_ids := addSubId st1.sub_ids l.subscriptionId }
  else st1

/-- `WebexCallingInfo.get_license_counts`: `resp` is the `licenses`
response items (`none` modelling a failed `get_wrapper`, which leaves
the state unchanged). -/
def get_license_counts (init : LicState) (resp : Option (List LicenseItem)) : LicState :=
  match resp with
  | none => init
  | some items => items.foldl licenseStep init

/-! ## Subscription dates: `WebexCallingInfo.get_license_dates` (webex.py lines 206-287)

The CCW interaction for one subscription id is abstracted as a
`LookupResult`: `httpFail` is a non-200 `getSubscriptionDetails`
response; `noSuccess` is a 200 response whose response-expression check
does not contain `SUCCESS`; `ok s e` is a 200 `SUCCESS` response whose
start/end date-times reformat (via `strptime`/`strftime`, a pure string
transformation abstracted here) to `s` and `e`. -/

/-- Outcome of the per-subscription CCW lookup. -/
inductive LookupResult where
  | httpFail
  | noSuccess
  | ok (startDate endDate : String)
deriving DecidableEq, Repr

/-- The state touched by `get_license_dates`. -/
structure DatesState where
  sub_start_dates : List String
  sub_end_dates : List String
  error_flag : Bool
deriving DecidableEq, Repr

/-- The `__init__` values of the date-related fields. -/
def initDatesState : DatesState :=
  ⟨[], [], false⟩

/-- Loop body of `get_license_dates` for one subscription id: a 200
`SUCCESS` response appends the two formatted dates, a 200 non-`SUCCESS`
response appends `"Unknown"` to both lists, a non-200 response appends
nothing and sets the error flag (the loop then continues). -/
def datesStep (lookup : String → LookupResult) (st : DatesState) (sid : String) : DatesState :=
  match lookup sid with
  | LookupResult.ok s e =>
      { st with sub_start_dates := st.sub_start_dates ++ [s],
                sub_end_dates := st.sub_end_dates ++ [e] }
  | LookupResult.noSuccess =>
      { st with sub_start_dates := st.sub_start_dates ++ ["Unknown"],
                sub_end_dates := st.sub_end_dates ++ ["Unknown"] }
  | LookupResult.httpFail => { st with error_flag := true }

/-- `WebexCallingInfo.get_license_dates`: `tokenOk` is whether the CCW
token POST returned 200; on failure the whole lookup loop is skipped
and the error flag set, otherwise every id in `sub_ids` is looked up. -/
def get_license_dates (tokenOk : Bool) (lookup : String → LookupResult)
    (sub_ids : List String) (st : DatesState) : DatesState :=
  if tokenOk then sub_ids.foldl (datesStep lookup) st
  else { st with error_flag := true }

/-- The start-date entry the loop body appends for one subscription id
whose lookup reaches the 200 branch. -/
def startDateOf (lookup : String → LookupResult) (sid : String) : String :=
  match lookup sid with
  | LookupResult.ok s _ => s
  | _ => "Unknown"

/-- The end-date entry the loop body appends for one subscription id
whose lookup reaches the 200 branch. -/
def endDateOf (lookup : String → LookupResult) (sid : String) : String :=
  match lookup sid with
  | LookupResult.ok _ e => e
  | _ => "Unknown"

/-! ## Phone numbers: `WebexCallingInfo.get_phone_numbers` (webex.py lines 289-340) -/

/-- The `owner` sub-object of a phone-number entry (the fields the code
reads). -/
structure OwnerInfo where
  type : String
  firstName : String
  lastName : String
  id : String
deriving DecidableEq, Repr

/-- A phone-number entry of the `telephony/config/numbers` response;
`none` models an absent key.  `phoneNumber := some ""` also covers a
present-but-falsy value (the code maps both to the empty string). -/
structure PhoneNumberJson where
  phoneNumber : Option String
  mainNumber : Option Bool
  extension : Option String
  locationName : Option String
  owner : Option OwnerInfo
  state : Option String
deriving DecidableEq, Repr

/-- A stored phone-number record. -/
structure NumberInfo where
  phone_number : String
  main_number : String
  extension : String
  location : String
  owner : String
  owner_id : String
  status : String
deriving DecidableEq, Repr

/-- `str.replace('+', '')`: remove every `+` character. -/
def removePlus (s : String) : String :=
  String.mk (s.data.filter (fun c => c ≠ '+'))

/-- Loop body of `get_phone_numbers` for one entry: each field starts as
the empty string and is filled only when the corresponding key is
present (owner fields only for `PEOPLE` owners, `owner_id` only when
the owner id is truthy). -/
def processNumber (n : PhoneNumberJson) : NumberInfo :=
  { phone_number :=
      match n.phoneNumber with
      | some s => if s ≠ "" then removePlus s else ""
      | none => ""
    main_number :=
      match n.mainNumber with
      | some b => if b then "Main" else ""
      | none => ""
    extension := n.extension.getD ""
    location := n.locationName.getD ""
    owner :=
      match n.owner with
      | some o => if o.type = "PEOPLE" then o.firstName ++ " " ++ o.lastName else ""
      | none => ""
    owner_id :=
      match n.owner with
      | some o => if o.type = "PEOPLE" ∧ o.id ≠ "" then o.id else ""
      | none => ""
    status :=
      match n.state with
      | some s => if s = "ACTIVE" then "Active" else "Not Applicable"
      | none => "" }

/-- `WebexCallingInfo.get_phone_numbers`: `resp` is the numbers response
(`none` modelling a failed `get_wrapper`, which leaves the list empty). -/
def get_phone_numbers (resp : Option (List PhoneNumberJson)) : List NumberInfo :=
  match resp with
  | none => []
  | some numbers => numbers.map processNumber

/-! ## Intercept settings: `WebexCallingInfo.get_intercept_settings` (webex.py lines 419-456) -/

/-- The `people/{id}/features/intercept` response (the fields the code
reads); `outgoingType` is `response['outgoing']['type']`, read only
when `enabled` is true. -/
structure InterceptResp where
  enabled : Bool
  outgoingType : String
deriving DecidableEq, Repr

/-- A stored intercept record: `outgoing_permissions := none` models an
absent dictionary key. -/
structure InterceptRecord where
  call_intercept : String
  outgoing_permissions : Option String
deriving DecidableEq, Repr

/-- Per-response body of `get_intercept_settings`: when enabled, the
`outgoing_permissions` key is written only for the two recognised
outgoing types; when disabled it is written as the empty string. -/
def processIntercept (r : InterceptResp) : InterceptRecord :=
  if r.enabled then
    { call_intercept := "Enable",
      outgoing_permissions :=
        if r.outgoingType = "INTERCEPT_ALL" then some "Intercept All Outgoing Calls"
        else if r.outgoingType = "ALLOW_LOCAL_ONLY" then some "Allow Only National Outgoing Calls"
        else none }
  else
    { call_intercept := "Disable", outgoing_permissions := some "" }

/-- Python dictionary assignment `m[k] = v` on an association list. -/
def assocSet {α : Type} (m : List (String × α)) (k : String) (v : α) : List (String × α) :=
  match m with
  | [] => [(k, v)]
  | (k', v') :: rest => if k' = k then (k, v) :: rest else (k', v') :: assocSet rest k v

/-- `WebexCallingInfo.get_intercept_settings`: for each phone number
assigned to a user, fetch that user's intercept feature (`respOf`,
`none` modelling a failed `get_wrapper`) and store the processed record
under the owner id. -/
def get_intercept_settings (numbers : List NumberInfo)
    (respOf : String → Option InterceptResp) : List (String × InterceptRecord) :=
  numbers.foldl
    (fun acc pn =>
      if pn.owner_id ≠ "" then
        match respOf pn.owner_id with
        | some r => assocSet acc pn.owner_id (processIntercept r)
        | none => acc
      else acc)
    []

/-! ## The aggregate object and `populate_df` (report.py lines 140-246) -/

/-- A stored outgoing-permissions record (`get_outbound_permissions`,
webex.py lines 342-417): the per-call-type fields plus the
`outgoing_call_permissions` summary, all present in every stored record. -/
structure Permissions where
  outgoing_call_permissions : String
  internal : String
  toll_free : String
  national : String
  international : String
  operator_assistance : String
  chargeable_directory_assistance : String
  special_services_1 : String
  special_services_2 : String
  premium_services_1 : String
  premium_services_2 : String
deriving DecidableEq, Repr

/-- The fields of a `WebexCallingInfo` object that `populate_df` reads. -/
structure WebexCallingInfo where
  displayName : String
  org_id : String
  trunks : List TrunkInfo
  professional_licenses : Option LicCounts
  workspace_licenses : Option LicCounts
  sub_ids : List String
  sub_start_dates : List String
  sub_end_dates : List String
  phone_numbers : List NumberInfo
  outgoing_permissions : List (String × Permissions)
  intercept_settings : List (String × InterceptRecord)
  error_flag : Bool
deriving DecidableEq, Repr

/-- A report-1 cell: the empty string or an integer (the Python row
starts every license field as `''` and overwrites some with ints). -/
inductive Cell where
  | blank
  | int (n : Int)
deriving DecidableEq, Repr

/-- `int(x) if x != '' else 0`: the numeric value of a cell, an empty
cell contributing 0. -/
def cellVal : Cell → Int
  | Cell.blank => 0
  | Cell.int n => n

/-- A row of report 1 (license summary), report.py lines 150-175. -/
structure Report1Row where
  customerName : String
  customerOrgId : String
  subRefIds : String
  startDates : String
  endDates : String
  bookedTotal : Cell
  bookedProf : Cell
  bookedWork : Cell
  provTotal : Cell
  provProf : Cell
  provWork : Cell
deriving DecidableEq, Repr

/-- `populate_df` with `report_number == 1`: build the single
license-summary row for an organization. -/
def populate_df_report1 (ci : WebexCallingInfo) : Report1Row :=
  let bookedProf :=
    match ci.professional_licenses with
    | some c => Cell.int c.booked
    | none => Cell.blank
  let provProf :=
    match ci.professional_licenses with
    | some c => Cell.int c.provisioned
    | none => Cell.blank
  let bookedWork :=
    match ci.workspace_licenses with
    | some c => Cell.int c.booked
    | none => Cell.blank
  let provWork :=
    match ci.workspace_licenses with
    | some c => Cell.int c.provisioned
    | none => Cell.blank
  { customerName := ci.displayName
    customerOrgId := ci.org_id
    subRefIds := String.intercalate ", " ci.sub_ids
    startDates := String.intercalate ", " ci.sub_start_dates
    endDates := String.intercalate ", " ci.sub_end_dates
    bookedTotal := Cell.int (cellVal bookedProf + cellVal bookedWork)
    bookedProf := bookedProf
    bookedWork := bookedWork
    provTotal := Cell.int (cellVal provProf + cellVal provWork)
    provProf := provProf
    provWork := provWork }

/-- The rows `populate_df` appends for report 1: always exactly one. -/
def report1Rows (ci : WebexCallingInfo) : List Report1Row :=
  [populate_df_report1 ci]

/-- A row of report 2 (number detail), report.py lines 177-229. -/
structure Report2Row where
  customerName : String
  customerOrgId : String
  phoneNumber : String
  mainNumber : String
  extension : String
  location : String
  assignedTo : String
  status : String
  outgoingCallPermissions : String
  internal : String
  tollFree : String
  national : String
  international : String
  operatorAssistance : String
  chargeableDirectoryAssistance : String
  specialServices1 : String
  specialServices2 : String
  premiumServices1 : String
  premiumServices2 : String
  callIntercept : String
  outgoingInterceptPermissions : String
deriving DecidableEq, Repr

/-- The report-2 row as first built from a number record, before the
permission and intercept fields are filled in. -/
def baseRow (ci : WebexCallingInfo) (number : NumberInfo) : Report2Row :=
  { customerName := ci.displayName
    customerOrgId := ci.org_id
    phoneNumber := number.phone_number
    mainNumber := number.main_number
    extension := number.extension
    location := number.location
    assignedTo := number.owner
    status := number.status
    outgoingCallPermissions := ""
    internal := ""
    tollFree := ""
    national := ""
    international := ""
    operatorAssistance := ""
    chargeableDirectoryAssistance := ""
    specialServices1 := ""
    specialServices2 := ""
    premiumServices1 := ""
    premiumServices2 := ""
    callIntercept := ""
    outgoingInterceptPermissions := "" }

/-- Fill the outgoing-permission cells of a report-2 row from a stored
permissions record; the per-call-type cells are copied only when the
summary is `Custom Settings`. -/
def applyPermissions (base : Report2Row) (perms : Permissions) : Report2Row :=
  if perms.outgoing_call_permissions = "Custom Settings" then
    { base with
      outgoingCallPermissions := perms.outgoing_call_permissions
      internal := perms.internal
      tollFree := perms.toll_free
      national := perms.national
      international := perms.international
      operatorAssistance := perms.operator_assistance
      chargeableDirectoryAssistance := perms.chargeable_directory_assistance
      specialServices1 := perms.special_services_1
      specialServices2 := perms.special_services_2
      premiumServices1 := perms.premium_services_1
      premiumServices2 := perms.premium_services_2 }
  else
    { base with outgoingCallPermissions := perms.outgoing_call_permissions }

/-- Fill the intercept cells of a report-2 row from a stored intercept
record.  Reading `intercept['outgoing_permissions']` when the key is
absent raises a `KeyError`; `none` models that abort of the row build. -/
def applyIntercept (base : Report2Row) (rec : InterceptRecord) : Option Report2Row :=
  match rec.outgoing_permissions with
  | some p => some { base with callIntercept := rec.call_intercept,
                               outgoingInterceptPermissions := p }
  | none => none

/-- The report-2 row after the outgoing-permission block: the cells are
filled only when the owner id has a stored permissions record. -/
def permsRow (ci : WebexCallingInfo) (number : NumberInfo) : Report2Row :=
  match ci.outgoing_permissions.lookup number.owner_id with
  | some perms => applyPermissions (baseRow ci number) perms
  | none => baseRow ci number

/-- `populate_df` with `report_number == 2`, body of the per-number
loop: build one row; for a number assigned to a user, fill in the
stored permission and intercept data keyed by owner id. -/
def report2Row (ci : WebexCallingInfo) (number : NumberInfo) : Option Report2Row :=
  if number.owner_id = "" then some (baseRow ci number)
  else
    match ci.intercept_settings.lookup number.owner_id with
    | some rec => applyIntercept (permsRow ci number) rec
    | none => some (permsRow ci number)

/-- A row of report 3 (trunk detail), report.py lines 231-242. -/
structure Report3Row where
  customerName : String
  customerOrgId : String
  trunk : String
  routeGroupName : String
deriving DecidableEq, Repr

/-- `populate_df` with `report_number == 3`: one placeholder row when
the organization has no kept trunks, otherwise one row per kept trunk
with its route-group names joined by `,`. -/
def report3Rows (displayName org_id : String) (trunks : List TrunkInfo) : List Report3Row :=
  if trunks.length = 0 then [⟨displayName, org_id, "", ""⟩]
  else trunks.map (fun t => ⟨displayName, org_id, t.name, String.intercalate "," t.rg_names⟩)

/-! ## The run loop: `generate_calling_report` (report.py lines 290-469) -/

/-- An organization entry of the `organizations` response. -/
structure OrgEntry where
  displayName : String
  id : String
deriving DecidableEq, Repr

/-- The organizations the loop processes: every listed organization
except the partner org itself (skipped by `continue`), regardless of
any per-organization failures. -/
def processed_orgs (orgs : List OrgEntry) (partner : String) : List OrgEntry :=
  orgs.filter (fun o => o.displayName ≠ partner)

/-- The run-level `error_flag` used to name the log artifact: it starts
`False` and each loop iteration executes
`error_flag = calling_info.error_flag`, a plain assignment that
overwrites the previous value with the current organization's flag
(`flagOf`). -/
def run_error_flag (orgs : List OrgEntry) (partner : String) (flagOf : OrgEntry → Bool) : Bool :=
  (processed_orgs orgs partner).foldl (fun _ o => flagOf o) false

/-! ## Concrete instances used by counterexamples and witnesses -/

/-- A professional license item carrying subscription id `Sub-A`. -/
def exProLicense : LicenseItem :=
  ⟨"Webex Calling - Professional", 5, 10, some "Sub-A"⟩

/-- A CCW lookup oracle whose every request gets a non-200 response. -/
def exFailLookup : String → LookupResult :=
  fun _ => LookupResult.httpFail

/-- A CCW lookup oracle whose every request gets a 200 response that
fails the `SUCCESS` check. -/
def exNoSuccessLookup : String → LookupResult :=
  fun _ => LookupResult.noSuccess

/-- A CCW lookup oracle where `Sub-A` fails with a non-200 and every
other id succeeds. -/
def c5Lookup : String → LookupResult :=
  fun sid =>
    if sid = "Sub-A" then LookupResult.httpFail
    else LookupResult.ok "03/01/2023" "03/01/2024"

/-- Two customer organizations. -/
def c2Orgs : List OrgEntry :=
  [⟨"Customer Alpha", "idA"⟩, ⟨"Customer Beta", "idB"⟩]

/-- Per-organization error flags: only `Customer Alpha` (the first
processed organization) hit a terminal HTTP failure. -/
def c2FlagOf : OrgEntry → Bool :=
  fun o => o.displayName == "Customer Alpha"

/-- A stored phone-number record assigned to no user. -/
def exNumberInfo : NumberInfo :=
  ⟨"1617555", "", "", "", "", "", ""⟩

/-- An aggregate with no collected data. -/
def exCi : WebexCallingInfo :=
  ⟨"Customer Alpha", "1234", [], none, none, [], [], [], [], [], [], false⟩

/-- An upstream phone-number entry with no `state` key. -/
def exStatelessNumber : PhoneNumberJson :=
  ⟨some "+1617555", none, none, none, none, none⟩

/-- An upstream phone-number entry whose number has interior `+` signs. -/
def exPlusNumberJson : PhoneNumberJson :=
  ⟨some "+1+617+555", none, none, none, none, none⟩

/-- A trunk entry. -/
def exTrunkJson : TrunkJson :=
  ⟨"Trunk One", "trunk-1"⟩

/-- A route-group oracle returning an empty route-group list for every
trunk. -/
def exRgOfEmpty : String → Option (List String) :=
  fun _ => some []

/-- A kept trunk record with two route groups. -/
def exTrunkInfo : TrunkInfo :=
  ⟨"Trunk One", "trunk-1", ["RG One", "RG Two"]⟩

/-- An aggregate with professional licenses (provisioned 3, booked 10)
and no workspace licenses. -/
def c7Ci : WebexCallingInfo :=
  ⟨"Customer Alpha", "1234", [], some ⟨3, 10⟩, none, ["Sub-A"],
    ["01/01/2023"], ["01/01/2024"], [], [], [], false⟩

/-! ## Helper lemmas -/

/-- One `get_license_dates` loop step preserves equality of the two
date-list lengths. -/
theorem datesStep_len_eq (lookup : String → LookupResult) (sid : String) (st : DatesState)
    (h : st.sub_start_dates.length = st.sub_end_dates.length) :
    (datesStep lookup st sid).sub_start_dates.length
      = (datesStep lookup st sid).sub_end_dates.length := by
  unfold datesStep
  cases hls : lookup sid <;> simp [h]

/-- The `get_license_dates` loop preserves equality of the two
date-list lengths. -/
theorem dates_foldl_len (lookup : String → LookupResult) (sids : List String) :
    ∀ st : DatesState, st.sub_start_dates.length = st.sub_end_dates.length →
      (sids.foldl (datesStep lookup) st).sub_start_dates.length
        = (sids.foldl (datesStep lookup) st).sub_end_dates.length := by
  induction sids with
  | nil => intro st h; simpa using h
  | cons sid rest ih =>
      intro st h
      simpa using ih (datesStep lookup st sid) (datesStep_len_eq lookup sid st h)

/-- When no lookup in the list fails with a non-200, the
`get_license_dates` loop appends exactly one start and one end date per
subscription id, in order. -/
theorem dates_foldl_nofail (lookup : String → LookupResult) (sids : List String) :
    ∀ st : DatesState, (∀ sid ∈ sids, lookup sid ≠ LookupResult.httpFail) →
      (sids.foldl (datesStep lookup) st).sub_start_dates
          = st.sub_start_dates ++ sids.map (startDateOf lookup)
        ∧ (sids.foldl (datesStep lookup) st).sub_end_dates
          = st.sub_end_dates ++ sids.map (endDateOf lookup) := by
  induction sids with
  | nil => intro st _; simp
  | cons sid rest ih =>
      intro st h
      have hsid : lookup sid ≠ LookupResult.httpFail := h sid (List.mem_cons_self sid rest)
      have hrest : ∀ s ∈ rest, lookup s ≠ LookupResult.httpFail :=
        fun s hs => h s (List.mem_cons_of_mem _ hs)
      have hstart : (datesStep lookup st sid).sub_start_dates
          = st.sub_start_dates ++ [startDateOf lookup sid] := by
        unfold datesStep startDateOf
        cases hls : lookup sid with
        | httpFail => exact absurd hls hsid
        | noSuccess => simp
        | ok s e => simp
      have hend : (datesStep lookup st sid).sub_end_dates
          = st.sub_end_dates ++ [endDateOf lookup sid] := by
        unfold datesStep endDateOf
        cases hls : lookup sid with
        | httpFail => exact absurd hls hsid
        | noSuccess => simp
        | ok s e => simp
      obtain ⟨h1, h2⟩ := ih (datesStep lookup st sid) hrest
      constructor
      · rw [List.foldl_cons, h1, hstart]; simp
      · rw [List.foldl_cons, h2, hend]; simp

/-- A kept trunk record always carries at least one route-group name. -/
theorem processTrunk_rg_ne_nil (rgOf : String → Option (List String)) (t : TrunkJson)
    (ti : TrunkInfo) (h : processTrunk rgOf t = some ti) : ti.rg_names ≠ [] := by
  unfold processTrunk at h
  cases hr : rgOf t.id with
  | none => rw [hr] at h; exact Option.noConfusion h
  | some rgs =>
      rw [hr] at h
      dsimp only at h
      by_cases hl : rgs.length = 0
      · rw [if_pos hl] at h; exact Option.noConfusion h
      · rw [if_neg hl] at h
        injection h with h
        rw [← h]
        simpa [← List.length_eq_zero] using hl

/-- `applyPermissions` does not touch the phone-number cell. -/
theorem applyPermissions_phoneNumber (base : Report2Row) (perms : Permissions) :
    (applyPermissions base perms).phoneNumber = base.phoneNumber := by
  unfold applyPermissions
  split <;> rfl

/-- `permsRow` does not touch the phone-number cell. -/
theorem permsRow_phoneNumber (ci : WebexCallingInfo) (number : NumberInfo) :
    (permsRow ci number).phoneNumber = number.phone_number := by
  unfold permsRow
  cases hp : ci.outgoing_permissions.lookup number.owner_id with
  | none => rfl
  | some perms => rw [applyPermissions_phoneNumber]; rfl

/-- `applyIntercept` does not touch the phone-number cell of a row it
produces. -/
theorem applyIntercept_phoneNumber (base : Report2Row) (rec : InterceptRecord)
    (row : Report2Row) (h : applyIntercept base rec = some row) :
    row.phoneNumber = base.phoneNumber := by
  unfold applyIntercept at h
  cases hr : rec.outgoing_permissions with
  | none => rw [hr] at h; exact Option.noConfusion h
  | some p => rw [hr] at h; injection h with h; rw [← h]

/-! ## Claim theorems -/

/-- C9: for the well-formed opaque organization identifier
`Y2lzY29zcGFyazovL3VzL09SR0FOSVpBVElPTi8xMjM0`, appending `==`,
base64-decoding (tolerating the excess padding), interpreting the bytes
as UTF-8, splitting on `/` and taking the final segment yields the
numeric org id `1234`; the intermediate decode is
`ciscospark://us/ORGANIZATION/1234`. -/
theorem c9_org_id_decode :
    get_org_id "Y2lzY29zcGFyazovL3VzL09SR0FOSVpBVElPTi8xMjM0" = some "1234"
    ∧ (b64decodeBytes ("Y2lzY29zcGFyazovL3VzL09SR0FOSVpBVElPTi8xMjM0" ++ "==")).bind utf8Decode
        = some ("ciscospark://us/ORGANIZATION/1234".data) := by
  constructor <;> decide

/-- C4: a GET whose first response is 403 triggers exactly one recovery
attempt — the org-details fetch (whose response is discarded: the
result does not depend on it) followed by exactly one retry of the
original request; a successful retry returns the retried body with the
error flag untouched, a failed retry returns `none` and sets the error
flag; any other non-success status issues no further request and fails
directly. -/
theorem c4_wrapper_403_retry (errFlag : Bool)
    (first recovery recovery2 retry : HttpResponse) :
    (first.status = 403 →
      (get_wrapper errFlag first recovery retry).requests
          = [ReqKind.original, ReqKind.orgDetails, ReqKind.original]
      ∧ (response_ok retry = true →
          (get_wrapper errFlag first recovery retry).result = some retry.body
          ∧ (get_wrapper errFlag first recovery retry).errorFlag = errFlag)
      ∧ (response_ok retry = false →
          get_wrapper errFlag first recovery retry
            = ⟨none, true, [ReqKind.original, ReqKind.orgDetails, ReqKind.original]⟩))
    ∧ (response_ok first = false → first.status ≠ 403 →
        get_wrapper errFlag first recovery retry = ⟨none, true, [ReqKind.original]⟩)
    ∧ get_wrapper errFlag first recovery retry = get_wrapper errFlag first recovery2 retry := by
  refine ⟨?_, ?_, rfl⟩
  · intro h403
    have hok : response_ok first = false := by
      simp [response_ok, h403]
    refine ⟨?_, ?_, ?_⟩
    · cases hr : response_ok retry <;> simp [get_wrapper, hok, h403, hr]
    · intro hr; simp [get_wrapper, hok, h403, hr]
    · intro hr; simp [get_wrapper, hok, h403, hr]
  · intro hok hne
    simp [get_wrapper, hok, hne]

/-- C4 witness: concrete 403-then-200 interaction returns the retried
body after the three requests; a 500 fails directly with one request. -/
theorem c4_wrapper_403_retry_witness :
    (get_wrapper false ⟨403, "forbidden"⟩ ⟨200, "org details"⟩ ⟨200, "payload"⟩).result
        = some "payload"
    ∧ (get_wrapper false ⟨403, "forbidden"⟩ ⟨200, "org details"⟩ ⟨200, "payload"⟩).requests
        = [ReqKind.original, ReqKind.orgDetails, ReqKind.original]
    ∧ get_wrapper false ⟨500, "server error"⟩ ⟨200, "x"⟩ ⟨200, "x"⟩
        = ⟨none, true, [ReqKind.original]⟩ := by
  have h := c4_wrapper_403_retry false ⟨403, "forbidden"⟩ ⟨200, "org details"⟩
    ⟨200, "org details"⟩ ⟨200, "payload"⟩
  have h2 := c4_wrapper_403_retry false ⟨500, "server error"⟩ ⟨200, "x"⟩ ⟨200, "x"⟩ ⟨200, "x"⟩
  exact ⟨((h.1 rfl).2.1 (by decide)).1, (h.1 rfl).1, h2.2.1 (by decide) (by decide)⟩

/-- C2 (code bug evaluation): with two processed organizations where
only the first hit a terminal HTTP failure, the run-level error signal
computed by `generate_calling_report` is `false` — the log artifact is
named `clean` although a processed organization failed, because the
loop overwrites the flag instead of accumulating it. -/
theorem c2_error_flag_last_org_only :
    OrgEntry.mk "Customer Alpha" "idA" ∈ processed_orgs c2Orgs "Partner Org"
    ∧ c2FlagOf ⟨"Customer Alpha", "idA"⟩ = true
    ∧ run_error_flag c2Orgs "Partner Org" c2FlagOf = false := by
  refine ⟨by decide, by decide, by decide⟩

/-- C3 counterexample: for an enabled intercept whose outgoing type is
neither `INTERCEPT_ALL` nor `ALLOW_LOCAL_ONLY`, the stored record's
description key is absent, not present-and-blank. -/
theorem c3_as_stated_counterexample :
    (processIntercept ⟨true, "ALLOW_ALL"⟩).outgoing_permissions = none
    ∧ (processIntercept ⟨true, "ALLOW_ALL"⟩).outgoing_permissions ≠ some "" := by
  constructor <;> decide

/-- C3 (amended): an enabled intercept maps to `Enable` with the
description present only for the two recognised outgoing types (absent
for any other type); a disabled intercept maps to `Disable` with a
present blank description; and the number-detail projection aborts
(`KeyError`) on a record whose description key is absent. -/
theorem c3_intercept_record_shape (r : InterceptResp) (base : Report2Row)
    (rec : InterceptRecord) :
    (r.enabled = true →
      (processIntercept r).call_intercept = "Enable"
      ∧ (processIntercept r).outgoing_permissions
          = (if r.outgoingType = "INTERCEPT_ALL" then some "Intercept All Outgoing Calls"
             else if r.outgoingType = "ALLOW_LOCAL_ONLY" then
               some "Allow Only National Outgoing Calls"
             else none))
    ∧ (r.enabled = false → processIntercept r = ⟨"Disable", some ""⟩)
    ∧ (rec.outgoing_permissions = none → applyIntercept base rec = none) := by
  refine ⟨?_, ?_, ?_⟩
  · intro h
    constructor <;> simp [processIntercept, h]
  · intro h
    simp [processIntercept, h]
  · intro h
    unfold applyIntercept
    rw [h]

/-- C3 witness: concrete records for each branch, and the projection
aborting on a description-less record. -/
theorem c3_intercept_record_shape_witness :
    (processIntercept ⟨true, "INTERCEPT_ALL"⟩).call_intercept = "Enable"
    ∧ (processIntercept ⟨true, "INTERCEPT_ALL"⟩).outgoing_permissions
        = some "Intercept All Outgoing Calls"
    ∧ processIntercept ⟨false, "INTERCEPT_ALL"⟩ = ⟨"Disable", some ""⟩
    ∧ applyIntercept (baseRow exCi exNumberInfo) ⟨"Enable", none⟩ = none := by
  have h1 := c3_intercept_record_shape ⟨true, "INTERCEPT_ALL"⟩ (baseRow exCi exNumberInfo)
    ⟨"Enable", none⟩
  have h2 := c3_intercept_record_shape ⟨false, "INTERCEPT_ALL"⟩ (baseRow exCi exNumberInfo)
    ⟨"Enable", none⟩
  exact ⟨(h1.1 rfl).1, (h1.1 rfl).2, h2.2.1 rfl, h1.2.2 rfl⟩

/-- C8 counterexample: an upstream entry with no `state` key yields
status `""`, not `"Not Applicable"`. -/
theorem c8_as_stated_counterexample :
    (processNumber exStatelessNumber).status ≠ "Not Applicable"
    ∧ (processNumber exStatelessNumber).status = "" := by
  constructor <;> decide

/-- C8 (amended): every entry the Phone-Numbers collector produces has
status `"Active"` when the upstream state is `ACTIVE`, `"Not
Applicable"` when a state is present with any other value, and the
empty string when the upstream entry carries no state at all. -/
theorem c8_status_mapping :
    (∀ n : PhoneNumberJson,
      (processNumber n).status
        = (match n.state with
           | some s => if s = "ACTIVE" then "Active" else "Not Applicable"
           | none => ""))
    ∧ ∀ ns : List PhoneNumberJson, get_phone_numbers (some ns) = ns.map processNumber := by
  exact ⟨fun n => rfl, fun ns => rfl⟩

/-- C1 counterexample: with one professional license carrying
subscription id `Sub-A` and a CCW lookup that returns a non-200, the
subscription-id list has length 1 while the start-date list has length
0 — the lists are not the same length after both collectors run. -/
theorem c1_as_stated_counterexample :
    (get_license_counts initLicState (some [exProLicense])).sub_ids.length
      ≠ (get_license_dates true exFailLookup
          (get_license_counts initLicState (some [exProLicense])).sub_ids
          initDatesState).sub_start_dates.length := by
  decide

/-- C1 (amended): after both collectors run, the start-date and
end-date lists always have equal length; and whenever the CCW token
call succeeds and no per-subscription lookup returns a non-200, the
date lists are exactly the per-id results in subscription-id order (a
failed success check contributing `"Unknown"` to both), so all three
lists have the same length and are index-aligned. -/
theorem c1_dates_alignment (tokenOk : Bool) (resp : Option (List LicenseItem))
    (lookup : String → LookupResult) :
    (get_license_dates tokenOk lookup (get_license_counts initLicState resp).sub_ids
        initDatesState).sub_start_dates.length
      = (get_license_dates tokenOk lookup (get_license_counts initLicState resp).sub_ids
        initDatesState).sub_end_dates.length
    ∧ ((∀ sid ∈ (get_license_counts initLicState resp).sub_ids,
          lookup sid ≠ LookupResult.httpFail) →
        (get_license_dates true lookup (get_license_counts initLicState resp).sub_ids
            initDatesState).sub_start_dates
          = (get_license_counts initLicState resp).sub_ids.map (startDateOf lookup)
        ∧ (get_license_dates true lookup (get_license_counts initLicState resp).sub_ids
            initDatesState).sub_end_dates
          = (get_license_counts initLicState resp).sub_ids.map (endDateOf lookup)) := by
  constructor
  · cases tokenOk
    · rfl
    · exact dates_foldl_len lookup _ initDatesState rfl
  · intro h
    have := dates_foldl_nofail lookup (get_license_counts initLicState resp).sub_ids
      initDatesState h
    simpa [get_license_dates] using this

/-- C1 witness: one professional license with subscription id `Sub-A`
and a lookup failing only the success check give index-aligned lists of
length 1 with `"Unknown"` in both date lists. -/
theorem c1_dates_alignment_witness :
    (get_license_dates true exNoSuccessLookup
        (get_license_counts initLicState (some [exProLicense])).sub_ids
        initDatesState).sub_start_dates = ["Unknown"]
    ∧ (get_license_dates true exNoSuccessLookup
        (get_license_counts initLicState (some [exProLicense])).sub_ids
        initDatesState).sub_end_dates = ["Unknown"]
    ∧ (get_license_counts initLicState (some [exProLicense])).sub_ids.length = 1 := by
  have h := (c1_dates_alignment true (some [exProLicense]) exNoSuccessLookup).2 (by decide)
  refine ⟨?_, ?_, by decide⟩
  · rw [h.1]; decide
  · rw [h.2]; decide

/-- C5 counterexample: with subscription ids `Sub-A` then `Sub-B`,
where the `Sub-A` lookup returns a non-200 and `Sub-B` succeeds, the
collector still performs the `Sub-B` lookup and appends its date after
the failure — the failure does not abort the remaining work. -/
theorem c5_as_stated_counterexample :
    c5Lookup "Sub-A" = LookupResult.httpFail
    ∧ (get_license_dates true c5Lookup ["Sub-A", "Sub-B"] initDatesState).sub_start_dates
        = ["03/01/2023"]
    ∧ (get_license_dates true c5Lookup ["Sub-A", "Sub-B"] initDatesState).sub_end_dates
        = ["03/01/2024"] := by
  refine ⟨by decide, by decide, by decide⟩

/-- C5 (amended): a non-200 at the token stage skips the whole lookup
loop and sets the error flag; a non-200 at a per-subscription lookup
sets the error flag and appends nothing for that id, but the loop
continues with the remaining subscription ids. -/
theorem c5_ccw_failure_behavior (lookup : String → LookupResult) (sids : List String)
    (sid : String) (rest : List String) (st : DatesState) :
    get_license_dates false lookup sids st = { st with error_flag := true }
    ∧ (lookup sid = LookupResult.httpFail →
        datesStep lookup st sid = { st with error_flag := true })
    ∧ get_license_dates true lookup (sid :: rest) st
        = List.foldl (datesStep lookup) (datesStep lookup st sid) rest := by
  refine ⟨rfl, ?_, rfl⟩
  intro h
  unfold datesStep
  rw [h]

/-- C5 witness: concrete instantiation of the three behaviors. -/
theorem c5_ccw_failure_behavior_witness :
    get_license_dates false exFailLookup ["Sub-A"] initDatesState
        = { initDatesState with error_flag := true }
    ∧ datesStep exFailLookup initDatesState "Sub-A"
        = { initDatesState with error_flag := true }
    ∧ get_license_dates true exFailLookup ["Sub-A", "Sub-B"] initDatesState
        = List.foldl (datesStep exFailLookup)
            (datesStep exFailLookup initDatesState "Sub-A") ["Sub-B"] := by
  have h := c5_ccw_failure_behavior exFailLookup ["Sub-A"] "Sub-A" ["Sub-B"] initDatesState
  exact ⟨h.1, h.2.1 rfl, h.2.2⟩

/-- C6: a trunk whose route-group fetch returns an empty list yields no
record; the kept-trunk list consists exactly of the trunks with a
record (so such a trunk is entirely absent) and every kept record has a
non-empty route-group list; an organization with no kept trunks
contributes exactly one placeholder row, and one with kept trunks
contributes exactly one row per kept trunk with its route-group names
joined by comma. -/
theorem c6_trunk_rows (rgOf : String → Option (List String)) (t : TrunkJson)
    (ts : List TrunkJson) (ti : TrunkInfo) (dn oid : String) (trunks : List TrunkInfo) :
    (rgOf t.id = some [] → processTrunk rgOf t = none)
    ∧ (ti ∈ get_trunks (some ts) rgOf ↔ ∃ u ∈ ts, processTrunk rgOf u = some ti)
    ∧ (ti ∈ get_trunks (some ts) rgOf → ti.rg_names ≠ [])
    ∧ report3Rows dn oid [] = [⟨dn, oid, "", ""⟩]
    ∧ (trunks ≠ [] →
        report3Rows dn oid trunks
          = trunks.map (fun u => ⟨dn, oid, u.name, String.intercalate "," u.rg_names⟩)) := by
  refine ⟨?_, ?_, ?_, rfl, ?_⟩
  · intro h
    simp [processTrunk, h]
  · simp [get_trunks, List.mem_filterMap]
  · intro h
    rw [get_trunks, List.mem_filterMap] at h
    obtain ⟨u, _, hu⟩ := h
    exact processTrunk_rg_ne_nil rgOf u ti hu
  · intro h
    rw [report3Rows, if_neg (by simpa [List.length_eq_zero] using h)]

/-- C6 witness: a trunk whose route groups come back empty is dropped;
an organization with no kept trunks yields one placeholder row; one
kept trunk yields one row with its route-group names joined by comma. -/
theorem c6_trunk_rows_witness :
    processTrunk exRgOfEmpty exTrunkJson = none
    ∧ report3Rows "Customer Alpha" "1234" [] = [⟨"Customer Alpha", "1234", "", ""⟩]
    ∧ report3Rows "Customer Alpha" "1234" [exTrunkInfo]
        = [⟨"Customer Alpha", "1234", "Trunk One", "RG One,RG Two"⟩] := by
  have h := c6_trunk_rows exRgOfEmpty exTrunkJson [] exTrunkInfo "Customer Alpha" "1234"
    [exTrunkInfo]
  refine ⟨h.1 rfl, h.2.2.2.1, ?_⟩
  rw [h.2.2.2.2 (by decide)]
  decide

/-- C7: the license-summary projection emits exactly one row per
organization; a missing license category renders as a blank cell (the
empty string, not zero); and each total cell is the arithmetic sum of
the professional and workspace component cells with a blank cell
contributing 0. -/
theorem c7_license_summary (ci : WebexCallingInfo) :
    (report1Rows ci).length = 1
    ∧ (populate_df_report1 ci).customerName = ci.displayName
    ∧ (populate_df_report1 ci).subRefIds = String.intercalate ", " ci.sub_ids
    ∧ (populate_df_report1 ci).bookedProf
        = (match ci.professional_licenses with
           | some c => Cell.int c.booked
           | none => Cell.blank)
    ∧ (populate_df_report1 ci).provProf
        = (match ci.professional_licenses with
           | some c => Cell.int c.provisioned
           | none => Cell.blank)
    ∧ (populate_df_report1 ci).bookedWork
        = (match ci.workspace_licenses with
           | some c => Cell.int c.booked
           | none => Cell.blank)
    ∧ (populate_df_report1 ci).provWork
        = (match ci.workspace_licenses with
           | some c => Cell.int c.provisioned
           | none => Cell.blank)
    ∧ (populate_df_report1 ci).bookedTotal
        = Cell.int (cellVal (populate_df_report1 ci).bookedProf
            + cellVal (populate_df_report1 ci).bookedWork)
    ∧ (populate_df_report1 ci).provTotal
        = Cell.int (cellVal (populate_df_report1 ci).provProf
            + cellVal (populate_df_report1 ci).provWork) := by
  obtain ⟨dn, oid, tr, prof, work, sids, sd, ed, pn, op, its, ef⟩ := ci
  cases prof <;> cases work <;>
    exact ⟨rfl, rfl, rfl, rfl, rfl, rfl, rfl, rfl, rfl⟩

/-- C7 witness: professional booked 10 with no workspace licenses gives
one row whose workspace cell is blank and whose booked total is 10. -/
theorem c7_license_summary_witness :
    (report1Rows c7Ci).length = 1
    ∧ (populate_df_report1 c7Ci).bookedProf = Cell.int 10
    ∧ (populate_df_report1 c7Ci).bookedWork = Cell.blank
    ∧ (populate_df_report1 c7Ci).bookedTotal = Cell.int 10 := by
  have h := c7_license_summary c7Ci
  exact ⟨h.1, by decide, by decide, by decide⟩

/-- C8 witness: an `ACTIVE` state yields `"Active"`, and the collector
maps `processNumber` over the response entries. -/
theorem c8_status_mapping_witness :
    (processNumber ⟨none, none, none, none, none, some "ACTIVE"⟩).status = "Active"
    ∧ get_phone_numbers (some [exStatelessNumber]) = [processNumber exStatelessNumber] := by
  have h := c8_status_mapping
  exact ⟨by rw [h.1 ⟨none, none, none, none, none, some "ACTIVE"⟩]; decide,
    h.2 [exStatelessNumber]⟩

/-- C10: a stored phone number equals the upstream `phoneNumber` value
with every `+` character removed (not only a leading one), and the
number-detail row build copies the stored value unchanged into the row. -/
theorem c10_plus_normalization (n : PhoneNumberJson) (s : String)
    (ci : WebexCallingInfo) (number : NumberInfo) (row : Report2Row) :
    (n.phoneNumber = some s →
      (processNumber n).phone_number = String.mk (s.data.filter (fun c => c ≠ '+')))
    ∧ (report2Row ci number = some row → row.phoneNumber = number.phone_number) := by
  constructor
  · intro h
    show (match n.phoneNumber with
          | some s => if s ≠ "" then removePlus s else ""
          | none => "") = String.mk (s.data.filter (fun c => c ≠ '+'))
    rw [h]
    by_cases hs : s = ""
    · subst hs; rfl
    · simp only [hs, ne_eq, not_false_iff, if_true]
      rfl
  · intro h
    unfold report2Row at h
    by_cases ho : number.owner_id = ""
    · rw [if_pos ho] at h
      injection h with h
      rw [← h]
      rfl
    · rw [if_neg ho] at h
      cases hl : ci.intercept_settings.lookup number.owner_id with
      | none =>
          rw [hl] at h
          injection h with h
          rw [← h]
          exact permsRow_phoneNumber ci number
      | some rec =>
          rw [hl] at h
          rw [applyIntercept_phoneNumber (permsRow ci number) rec row h]
          exact permsRow_phoneNumber ci number

/-- C10 witness: interior `+` signs are removed too, and a concrete
row build preserves the stored number. -/
theorem c10_plus_normalization_witness :
    (processNumber exPlusNumberJson).phone_number = "1617555"
    ∧ (baseRow exCi exNumberInfo).phoneNumber = exNumberInfo.phone_number := by
  have h := c10_plus_normalization exPlusNumberJson "+1+617+555" exCi exNumberInfo
    (baseRow exCi exNumberInfo)
  constructor
  · rw [h.1 rfl]; decide
  · exact h.2 (by decide)

end WebexReport
